import Mathlib

/-!
Shallow embedding of the order-lifecycle and payment workflow of
`routes.py` (register_routes): the routes `submit_order`,
`create_checkout_session`, `payment_success`, `track_order` and
`admin_update_order`, together with the data they read and write.

Database rows are Lean structures; the relational store is a `List` of
rows; the ORM's in-place mutation of a fetched row becomes replacement of
the first matching list element.  Python truthiness tests (`if not x:`)
on nullable values are modelled explicitly.  The outbound mail transport
is an oracle `sendOk : Bool` (`true` = the send returned, `false` = it
raised); each route's `try/except` around a send swallows the failure
after logging, which the embedding records in an `emailFailedLogged`
field of the result.
-/

/-- Enumeration behind the `status` column of `Order`
(`pending | in_progress | completed | cancelled`). -/
inductive OrderStatus
  | pending
  | in_progress
  | completed
  | cancelled
deriving DecidableEq, Repr

/-- Enumeration behind the `payment_status` column of `Order`
(`unpaid | paid`). -/
inductive PaymentStatus
  | unpaid
  | paid
deriving DecidableEq, Repr

/-- The `Order` row (the columns the order workflow reads or writes).
`totalAmount` is the decimal `total_amount`; timestamps are abstract
`Nat` instants. -/
structure Order where
  id : Nat
  firstName : String
  lastName : String
  email : String
  phone : Option String
  serviceId : Nat
  serviceTier : String
  totalAmount : ℚ
  status : OrderStatus
  paymentStatus : PaymentStatus
  stripeSessionId : Option String
  adminNotes : Option String
  uploadedResumePath : Option String
  uploadedCoverLetterPath : Option String
  uploadedJobDescriptionPath : Option String
  createdAt : Nat
  updatedAt : Nat
  completedAt : Option Nat
deriving DecidableEq, Repr

/-- The `OrderTracking` row (order reference, note, timestamp). -/
structure OrderTracking where
  orderId : Nat
  note : String
  createdAt : Nat
deriving DecidableEq, Repr

/-- The `Service` catalog row: three nullable tier prices and an active
flag. -/
structure Service where
  id : Nat
  name : String
  price_basic : Option ℚ
  price_standard : Option ℚ
  price_premium : Option ℚ
  active : Bool
deriving DecidableEq, Repr

/-- Python truthiness of a nullable number: `None` and `0` are falsy
(`if not total_amount:` in `submit_order`). -/
def pyFalsyNum : Option ℚ → Bool
  | none => true
  | some q => q = 0

/-- Python truthiness of a nullable string: `None` and the empty string
are falsy (`if not stripe.api_key:`, `if not order_id or not email:`). -/
def pyFalsyStr : Option String → Bool
  | none => true
  | some s => s = ""

/-- Python `int()` applied to an exact number: truncation toward zero
(`int(order.total_amount * 100)` in `create_checkout_session`). -/
def pyInt (q : ℚ) : ℤ :=
  if 0 ≤ q then ⌊q⌋ else ⌈q⌉

/-- `Service.query.get(form.service_id.data)`: primary-key lookup in the
service table. -/
def lookupService (services : List Service) (sid : Nat) : Option Service :=
  services.find? (fun s => s.id == sid)

/-- The `tier_prices` dict of `submit_order` followed by `.get(tier)`:
the service's price column for the requested tier, `none` for an unknown
tier key (and a known key may itself hold a null price column). -/
def tier_prices (s : Service) (tier : String) : Option ℚ :=
  if tier = "basic" then s.price_basic
  else if tier = "standard" then s.price_standard
  else if tier = "premium" then s.price_premium
  else none

/-- The validated fields of `OrderForm` as `submit_order` reads them.
The optional upload fields carry the sanitized original filename
(`secure_filename` output) of a submitted file. -/
structure OrderForm where
  firstName : String
  lastName : String
  email : String
  phone : Option String
  serviceId : Nat
  serviceTier : String
  resumeUpload : Option String
  coverLetterUpload : Option String
  jobDescriptionUpload : Option String
deriving DecidableEq, Repr

/-- Modelled from the spec: the `Order` model's `status` column default
(`models.py` is not part of the analysed sources; the spec states the
row is created with `status=pending`). -/
def orderCreationStatus : OrderStatus := .pending

/-- Modelled from the spec: the `Order` model's `payment_status` column
default (`models.py` is not part of the analysed sources; the spec
states the row is created with `payment_status=unpaid`). -/
def orderCreationPaymentStatus : PaymentStatus := .unpaid

/-- What `submit_order` hands back to the browser. -/
inductive SubmitPage
  | renderOrderPage (flashError : Option String)
  | redirectCheckout (orderId : Nat)
deriving DecidableEq, Repr

/-- Result of one `submit_order` request: the committed order row (if
any), the response, and whether a confirmation-email failure was caught
and logged. -/
structure SubmitResult where
  createdOrder : Option Order
  page : SubmitPage
  emailFailedLogged : Bool
deriving DecidableEq, Repr

/-- `/submit-order` (`submit_order`, routes.py:195-273), the validated
path of the form.  Looks up the service by primary key, reads the tier
price through the `tier_prices` dict, rejects a falsy price
(`if not total_amount:` — both a null column and a zero price), builds
the `Order` row (its `status`/`payment_status` column defaults are
`orderCreationStatus`/`orderCreationPaymentStatus` below), stores the
prefixed upload filenames, commits, then tries the confirmation email —
an exception there is logged and swallowed (routes.py:265-268) — and
redirects to checkout.  `newId` is the id the database assigns at
commit; `ts` is the `datetime.now().strftime(...)` stamp used in the
generated filenames; `sendOk` is the mail-transport oracle. -/
def submit_order (services : List Service) (f : OrderForm) (newId : Nat)
    (ts : String) (now : Nat) (sendOk : Bool) : SubmitResult :=
  match lookupService services f.serviceId with
  | none => ⟨none, .renderOrderPage (some "Invalid service selected."), false⟩
  | some service =>
    match tier_prices service f.serviceTier with
    | none =>
      -- `if not total_amount:` — a null price column is falsy
      ⟨none, .renderOrderPage (some "Invalid service tier selected."), false⟩
    | some total_amount =>
      if total_amount = 0 then
        -- `if not total_amount:` — a zero price is falsy
        ⟨none, .renderOrderPage (some "Invalid service tier selected."), false⟩
      else
        let order : Order :=
          { id := newId
            firstName := f.firstName
            lastName := f.lastName
            email := f.email
            phone := f.phone
            serviceId := f.serviceId
            serviceTier := f.serviceTier
            totalAmount := total_amount
            status := orderCreationStatus
            paymentStatus := orderCreationPaymentStatus
            stripeSessionId := none
            adminNotes := none
            uploadedResumePath :=
              f.resumeUpload.map (fun n => "resume_" ++ ts ++ "_" ++ n)
            uploadedCoverLetterPath :=
              f.coverLetterUpload.map (fun n => "cover_" ++ ts ++ "_" ++ n)
            uploadedJobDescriptionPath :=
              f.jobDescriptionUpload.map (fun n => "job_" ++ ts ++ "_" ++ n)
            createdAt := now
            updatedAt := now
            completedAt := none }
        ⟨some order, .redirectCheckout newId, !sendOk⟩

/-- The object `stripe.checkout.Session.create` returns: the session id
and the hosted-checkout url (nullable in the client library). -/
structure StripeSession where
  id : String
  url : Option String
deriving DecidableEq, Repr

/-- What `create_checkout_session` hands back to the browser. -/
inductive CheckoutPage
  | notConfiguredRedirectIndex
  | providerErrorRedirectOrder
  | redirectSession (url : Option String)
deriving DecidableEq, Repr

/-- Result of one `create_checkout_session` request: the committed order
row, the `unit_amount` sent in the line item of the provider call
(`none` when the call was never made), and the response. -/
structure CheckoutResult where
  order : Order
  requestedUnitAmount : Option ℤ
  page : CheckoutPage
deriving DecidableEq, Repr

/-- `/create-checkout-session/<order_id>` (`create_checkout_session`,
routes.py:275-317), after the `get_or_404` fetched `o`.  Fails fast when
no provider key is configured (`if not stripe.api_key:`).  Otherwise a
`try` block calls the provider with a single line item whose
`unit_amount` is `int(o.total_amount * 100)`; on success the session id
is committed onto the order and the browser is redirected (303) to the
session url; any exception from the provider call is caught, logged and
answered with a generic retryable flash, with the session-id
assignment (routes.py:309-310) never reached.  `provider` is the
outcome oracle of the `stripe.checkout.Session.create` call. -/
def create_checkout_session (o : Order) (apiKey : Option String)
    (provider : Except Unit StripeSession) : CheckoutResult :=
  if pyFalsyStr apiKey then
    ⟨o, none, .notConfiguredRedirectIndex⟩
  else
    let unit_amount : ℤ := pyInt (o.totalAmount * 100)
    match provider with
    | .error _ => ⟨o, some unit_amount, .providerErrorRedirectOrder⟩
    | .ok s =>
      ⟨{ o with stripeSessionId := some s.id }, some unit_amount,
        .redirectSession s.url⟩

/-- `{ o with payment_status := paid, status := in_progress }` — the two
assignments of `payment_success` (routes.py:325-326). -/
def reconcileOrder (o : Order) : Order :=
  { o with paymentStatus := .paid, status := .in_progress }

/-- `Order.query.filter_by(stripe_session_id=sid).first()` followed by
the in-place mutation and commit of `payment_success`: replaces the
first row whose stored session token is `sid` by its reconciled form and
reports whether such a row existed. -/
def reconcileList (sid : String) : List Order → List Order × Bool
  | [] => ([], false)
  | o :: rest =>
    if o.stripeSessionId = some sid then
      (reconcileOrder o :: rest, true)
    else
      let r := reconcileList sid rest
      (o :: r.1, r.2)

/-- What `payment_success` hands back to the browser: `success.html`
rendered with or without an order. -/
inductive PayPage
  | successWithOrder
  | successPlain
deriving DecidableEq, Repr

/-- Result of one `payment_success` request: the committed order table,
how many payment-confirmation notifications the request fired, the
response, and whether a send failure was caught and logged. -/
structure PayResult where
  orders : List Order
  notificationsFired : Nat
  page : PayPage
  emailFailedLogged : Bool
deriving DecidableEq, Repr

/-- `/payment-success` (`payment_success`, routes.py:319-337).  Reads
the `session_id` query parameter (`if session_id:` — absent or empty is
falsy); looks the order up by stored session token; if found, sets
`payment_status=paid` and `status=in_progress`, commits, then tries
`send_payment_confirmation_email` — an exception there is logged and
swallowed (routes.py:330-333) — and renders the success page with the
order; otherwise renders the plain success page.  There is no
already-paid guard anywhere on this path.  `sendOk` is the
mail-transport oracle. -/
def payment_success (sessionId : Option String) (orders : List Order)
    (sendOk : Bool) : PayResult :=
  match sessionId with
  | none => ⟨orders, 0, .successPlain, false⟩
  | some sid =>
    if sid = "" then ⟨orders, 0, .successPlain, false⟩
    else
      let r := reconcileList sid orders
      if r.2 then ⟨r.1, 1, .successWithOrder, !sendOk⟩
      else ⟨orders, 0, .successPlain, false⟩

/-- What `track_order` hands back to the browser. -/
inductive TrackPage
  | renderPlain
  | notFoundFlash
  | found (o : Order) (updates : List OrderTracking)
deriving DecidableEq, Repr

/-- `/track-order` (`track_order`, routes.py:96-114).  Renders the bare
page when either query parameter is missing or empty
(`if not order_id or not email:`); otherwise runs
`Order.query.filter_by(id=order_id, email=email).first()` — a single
conjunctive filter on both columns — and on no match flashes one fixed
"Order not found" message and renders the bare page, on a match renders
the order together with its tracking rows (which the source additionally
orders by `created_at` descending). -/
def track_order (orders : List Order) (trackingDb : List OrderTracking)
    (orderId : Option Nat) (email : Option String) : TrackPage :=
  match orderId, email with
  | some oid, some em =>
    if em = "" then .renderPlain
    else
      match orders.find? (fun o => o.id == oid && o.email == em) with
      | none => .notFoundFlash
      | some o => .found o (trackingDb.filter (fun t => t.orderId == o.id))
  | _, _ => .renderPlain

/-- Result of one validated `admin_update_order` request: the committed
order row, the (unchanged) `OrderTracking` table, whether a
status-update notification was fired (`send_status_update_email`
returns immediately when the status did not change), and whether a send
failure was caught and logged.  The response is always a redirect to the
order-detail page. -/
structure AdminUpdateResult where
  order : Order
  tracking : List OrderTracking
  notificationFired : Bool
  emailFailedLogged : Bool
deriving DecidableEq, Repr

/-- `/admin/order/<order_id>/update` (`admin_update_order`,
routes.py:433-457), the validated path of `OrderStatusForm` after
`get_or_404` fetched `o` (admin authentication is the external
collaborator).  Assigns the submitted status and notes unconditionally,
stamps `updated_at`, sets `completed_at` exactly when the new status is
`completed` and the old one was not, commits, then tries
`send_status_update_email` — which itself is a no-op when the status did
not change (routes.py:556) and whose exception is otherwise logged and
swallowed (routes.py:452-455).  No `OrderTracking` row is created
anywhere in this route.  `sendOk` is the mail-transport oracle. -/
def admin_update_order (o : Order) (newStatus : OrderStatus)
    (notes : Option String) (now : Nat) (tracking : List OrderTracking)
    (sendOk : Bool) : AdminUpdateResult :=
  let old_status := o.status
  let o1 : Order :=
    { o with status := newStatus, adminNotes := notes, updatedAt := now }
  let o2 : Order :=
    if newStatus = .completed ∧ old_status ≠ .completed then
      { o1 with completedAt := some now }
    else o1
  let fired : Bool := old_status != newStatus
  { order := o2
    tracking := tracking
    notificationFired := fired
    emailFailedLogged := fired && !sendOk }

/-!  Concrete rows used by the evaluations below. -/

/-- A concrete pending, unpaid order. -/
def baseOrder : Order :=
  { id := 1
    firstName := "Ada"
    lastName := "Smith"
    email := "ada@example.com"
    phone := none
    serviceId := 7
    serviceTier := "premium"
    totalAmount := 299
    status := .pending
    paymentStatus := .unpaid
    stripeSessionId := none
    adminNotes := none
    uploadedResumePath := none
    uploadedCoverLetterPath := none
    uploadedJobDescriptionPath := none
    createdAt := 0
    updatedAt := 0
    completedAt := none }

/-- A concrete order holding the stored checkout-session token cs_1. -/
def sessionOrder : Order :=
  { baseOrder with stripeSessionId := some "cs_1" }

/-!  Supporting lemmas about payment reconciliation. -/

/-- Reconciling an order leaves its stored session token unchanged. -/
theorem reconcileOrder_sessionId (o : Order) :
    (reconcileOrder o).stripeSessionId = o.stripeSessionId := rfl

/-- Reconciling twice is the same as reconciling once. -/
theorem reconcileOrder_idem (o : Order) :
    reconcileOrder (reconcileOrder o) = reconcileOrder o := rfl

/-- A second reconciliation pass over the order table is the identity:
the updated row still carries the same session token, so the same row is
found again and rewritten with the same values. -/
theorem reconcileList_idem (sid : String) (l : List Order) :
    reconcileList sid (reconcileList sid l).1 = reconcileList sid l := by
  induction l with
  | nil => rfl
  | cons o rest ih =>
    by_cases h : o.stripeSessionId = some sid
    · simp [reconcileList, h, reconcileOrder_sessionId, reconcileOrder_idem]
    · simp [reconcileList, h, ih]

/-- Every row of a reconciled table is either an untouched input row or
has been set to in_progress/paid. -/
theorem reconcileList_mem (sid : String) (l : List Order) :
    ∀ o ∈ (reconcileList sid l).1,
      o ∈ l ∨ (o.status = .in_progress ∧ o.paymentStatus = .paid) := by
  induction l with
  | nil => simp [reconcileList]
  | cons a rest ih =>
    intro o ho
    by_cases h : a.stripeSessionId = some sid
    · simp [reconcileList, h] at ho
      rcases ho with rfl | ho
      · exact Or.inr ⟨rfl, rfl⟩
      · exact Or.inl (List.mem_cons_of_mem a ho)
    · simp [reconcileList, h] at ho
      rcases ho with rfl | ho
      · exact Or.inl (List.mem_cons_self o rest)
      · rcases ih o ho with h1 | h2
        · exact Or.inl (List.mem_cons_of_mem a h1)
        · exact Or.inr h2

/-- C1 (counterexample): the payment-success callback has no
already-paid guard — a second invocation with the same session token
finds the (now already paid) order again and fires another
payment-confirmation notification, where the claim requires that the
already-paid case be a no-op firing none. -/
theorem payment_success_second_call_fires_again :
    (payment_success (some "cs_1")
        ((payment_success (some "cs_1") [sessionOrder] true).orders)
        true).notificationsFired = 1 := by decide

/-- C1 (amended): reconcileSuccess is idempotent on order state —
invoking `payment_success` twice with the same session token leaves the
table exactly as one invocation does, and every touched row ends at
status=in_progress, payment_status=paid — but the already-paid case is
not a no-op: whenever the first invocation fired a payment-confirmation
notification, the second invocation fires another one. -/
theorem payment_success_state_idempotent_but_renotifies
    (sid : String) (orders : List Order) (ok1 ok2 : Bool) :
    (payment_success (some sid)
        ((payment_success (some sid) orders ok1).orders) ok2).orders
      = (payment_success (some sid) orders ok1).orders
    ∧ (∀ o ∈ (payment_success (some sid) orders ok1).orders,
        o ∈ orders ∨ (o.status = .in_progress ∧ o.paymentStatus = .paid))
    ∧ ((payment_success (some sid) orders ok1).notificationsFired = 1 →
        (payment_success (some sid)
          ((payment_success (some sid) orders ok1).orders)
          ok2).notificationsFired = 1) := by
  by_cases hs : sid = ""
  · subst hs
    refine ⟨rfl, ?_, ?_⟩
    · intro o ho
      exact Or.inl (by simpa [payment_success] using ho)
    · intro h
      simp [payment_success] at h
  · by_cases hb : (reconcileList sid orders).2 = true
    · have hidem := reconcileList_idem sid orders
      refine ⟨?_, ?_, ?_⟩
      · simp [payment_success, hs, hb, hidem]
      · intro o ho
        have ho1 : o ∈ (reconcileList sid orders).1 := by
          simpa [payment_success, hs, hb] using ho
        exact reconcileList_mem sid orders o ho1
      · intro _
        simp [payment_success, hs, hb, hidem]
    · refine ⟨?_, ?_, ?_⟩
      · simp [payment_success, hs, hb]
      · intro o ho
        exact Or.inl (by simpa [payment_success, hs, hb] using ho)
      · intro h
        simp [payment_success, hs, hb] at h

/-- C1 (witness): on a concrete one-order table the amended theorem
evaluates — after a first successful invocation, a second one leaves
the table unchanged. -/
theorem payment_success_state_idempotent_witness :
    (payment_success (some "cs_1")
        ((payment_success (some "cs_1") [sessionOrder] true).orders)
        true).orders
      = (payment_success (some "cs_1") [sessionOrder] true).orders
    ∧ (payment_success (some "cs_1")
        ((payment_success (some "cs_1") [sessionOrder] true).orders)
        true).notificationsFired = 1 :=
  ⟨(payment_success_state_idempotent_but_renotifies "cs_1" [sessionOrder]
      true true).1,
   (payment_success_state_idempotent_but_renotifies "cs_1" [sessionOrder]
      true true).2.2 (by decide)⟩

/-- C2 (counterexample): an order in the terminal state completed is
moved back to pending by the admin status update — the claim says no
update may change the status of a completed order, so the updated status
should still be completed, and it is not. -/
theorem admin_update_order_exits_completed :
    (admin_update_order { baseOrder with status := .completed }
        .pending none 5 [] true).order.status ≠ OrderStatus.completed := by
  decide

/-- C2 (amended): the admin status update enforces no transition table
at all — it always sets the order's status to exactly the value the
validated form supplies, whatever the old status was, terminal states
included. -/
theorem admin_update_order_sets_requested_status (o : Order)
    (newStatus : OrderStatus) (notes : Option String) (now : Nat)
    (tracking : List OrderTracking) (ok : Bool) :
    (admin_update_order o newStatus notes now tracking ok).order.status
      = newStatus := by
  unfold admin_update_order
  by_cases h : newStatus = .completed ∧ o.status ≠ .completed <;> simp [h]

/-- C3: the admin status update appends no OrderTracking row — the
history table after any update, status-changing or not, is exactly the
table before it, where the claim (and the spec's data model) require one
appended row per status change. -/
theorem admin_update_order_appends_no_tracking (o : Order)
    (newStatus : OrderStatus) (notes : Option String) (now : Nat)
    (tracking : List OrderTracking) (ok : Bool) :
    (admin_update_order o newStatus notes now tracking ok).tracking
      = tracking := by
  unfold admin_update_order
  by_cases h : newStatus = .completed ∧ o.status ≠ .completed <;> simp [h]

/-- C7: with both query fields supplied (the route treats a missing or
empty parameter separately), the lookup answers with the one fixed
not-found page whenever no order row matches id and email together —
the same outcome whether the id is wrong, the email is wrong, or both —
and hands back an order only when that order carries exactly the queried
id and email. -/
theorem track_order_requires_both_fields (orders : List Order)
    (trackingDb : List OrderTracking) (oid : Nat) (em : String)
    (hem : em ≠ "") :
    ((∀ o ∈ orders, ¬(o.id = oid ∧ o.email = em)) →
        track_order orders trackingDb (some oid) (some em)
          = .notFoundFlash)
    ∧ (∀ o updates,
        track_order orders trackingDb (some oid) (some em)
            = .found o updates →
          o ∈ orders ∧ o.id = oid ∧ o.email = em) := by
  constructor
  · intro h
    have hfind : orders.find? (fun o => o.id == oid && o.email == em)
        = none := by
      rw [List.find?_eq_none]
      intro a ha
      have := h a ha
      simp only [Bool.and_eq_true, beq_iff_eq]
      tauto
    unfold track_order
    dsimp only
    rw [if_neg hem, hfind]
  · intro o updates hfound
    unfold track_order at hfound
    dsimp only at hfound
    rw [if_neg hem] at hfound
    cases hfind : orders.find? (fun o => o.id == oid && o.email == em) with
    | none => rw [hfind] at hfound; exact absurd hfound (by simp)
    | some a =>
      rw [hfind] at hfound
      have hmem := List.mem_of_find?_eq_some hfind
      have hprop := List.find?_some hfind
      simp only [Bool.and_eq_true, beq_iff_eq] at hprop
      cases hfound
      exact ⟨hmem, hprop.1, hprop.2⟩

/-- C7 (witness): a pair whose id exists but whose email belongs to no
order evaluates to the not-found page. -/
theorem track_order_requires_both_fields_witness :
    track_order [baseOrder] [] (some 1) (some "mallory@example.com")
      = .notFoundFlash :=
  (track_order_requires_both_fields [baseOrder] [] 1
    "mallory@example.com" (by decide)).1 (by decide)

/-- A concrete catalog row: Executive Resume, premium tier priced
299. -/
def execService : Service :=
  { id := 7
    name := "Executive Resume"
    price_basic := some 99
    price_standard := some 199
    price_premium := some 299
    active := true }

/-- A concrete validated order form selecting service 7, premium
tier. -/
def sampleForm : OrderForm :=
  { firstName := "Ada"
    lastName := "Smith"
    email := "ada@example.com"
    phone := none
    serviceId := 7
    serviceTier := "premium"
    resumeUpload := none
    coverLetterUpload := none
    jobDescriptionUpload := none }

/-- C8: for a valid (service, tier) pair — the service found by id, the
tier price present and nonzero — the order row submit_order commits has
total_amount exactly the service's stored price for that tier,
status=pending and payment_status=unpaid. -/
theorem submit_order_price_and_initial_state (services : List Service)
    (f : OrderForm) (newId : Nat) (ts : String) (now : Nat) (ok : Bool)
    (s : Service) (hs : lookupService services f.serviceId = some s)
    (p : ℚ) (hp : tier_prices s f.serviceTier = some p) (hpz : p ≠ 0) :
    ∃ o : Order,
      (submit_order services f newId ts now ok).createdOrder = some o
      ∧ o.totalAmount = p ∧ o.status = .pending
      ∧ o.paymentStatus = .unpaid := by
  unfold submit_order
  rw [hs]
  dsimp only
  rw [hp]
  dsimp only
  rw [if_neg hpz]
  exact ⟨_, rfl, rfl, rfl, rfl⟩

/-- C8 (witness): submitting the premium tier of the 299-dollar service
creates a pending, unpaid order totalling exactly 299. -/
theorem submit_order_price_and_initial_state_witness :
    ∃ o : Order,
      (submit_order [execService] sampleForm 1 "20240101_000000" 0
        true).createdOrder = some o
      ∧ o.totalAmount = 299 ∧ o.status = .pending
      ∧ o.paymentStatus = .unpaid :=
  submit_order_price_and_initial_state [execService] sampleForm 1
    "20240101_000000" 0 true execService (by decide) 299 (by decide)
    (by decide)

/-- C9: a notification-send failure never rolls back or blocks the
triggering state change — for order creation, payment reconciliation and
the admin status update alike, the committed rows and the response
handed to the caller are identical whether the outbound send returned or
raised (only the logged-failure flag differs). -/
theorem notification_failure_preserves_state_and_outcome
    (services : List Service) (f : OrderForm) (newId : Nat) (ts : String)
    (now : Nat) (sessionId : Option String) (orders : List Order)
    (o : Order) (newStatus : OrderStatus) (notes : Option String)
    (now2 : Nat) (tracking : List OrderTracking) :
    ((submit_order services f newId ts now true).createdOrder
        = (submit_order services f newId ts now false).createdOrder
      ∧ (submit_order services f newId ts now true).page
        = (submit_order services f newId ts now false).page)
    ∧ ((payment_success sessionId orders true).orders
        = (payment_success sessionId orders false).orders
      ∧ (payment_success sessionId orders true).page
        = (payment_success sessionId orders false).page
      ∧ (payment_success sessionId orders true).notificationsFired
        = (payment_success sessionId orders false).notificationsFired)
    ∧ ((admin_update_order o newStatus notes now2 tracking true).order
        = (admin_update_order o newStatus notes now2 tracking false).order
      ∧ (admin_update_order o newStatus notes now2 tracking true).tracking
        = (admin_update_order o newStatus notes now2 tracking
            false).tracking) := by
  have hsubmit : ∀ ok : Bool,
      (submit_order services f newId ts now ok).createdOrder
        = (submit_order services f newId ts now true).createdOrder
      ∧ (submit_order services f newId ts now ok).page
        = (submit_order services f newId ts now true).page := by
    intro ok
    unfold submit_order
    cases lookupService services f.serviceId with
    | none => exact ⟨rfl, rfl⟩
    | some s =>
      dsimp only
      cases tier_prices s f.serviceTier with
      | none => exact ⟨rfl, rfl⟩
      | some p =>
        dsimp only
        by_cases hpz : p = 0
        · rw [if_pos hpz, if_pos hpz]; exact ⟨rfl, rfl⟩
        · rw [if_neg hpz, if_neg hpz]; exact ⟨rfl, rfl⟩
  have hpay : ∀ ok : Bool,
      (payment_success sessionId orders ok).orders
        = (payment_success sessionId orders true).orders
      ∧ (payment_success sessionId orders ok).page
        = (payment_success sessionId orders true).page
      ∧ (payment_success sessionId orders ok).notificationsFired
        = (payment_success sessionId orders true).notificationsFired := by
    intro ok
    unfold payment_success
    cases sessionId with
    | none => exact ⟨rfl, rfl, rfl⟩
    | some sid =>
      dsimp only
      by_cases hempty : sid = ""
      · rw [if_pos hempty, if_pos hempty]; exact ⟨rfl, rfl, rfl⟩
      · rw [if_neg hempty, if_neg hempty]
        by_cases hb : (reconcileList sid orders).2 = true
        · rw [if_pos hb, if_pos hb]; exact ⟨rfl, rfl, rfl⟩
        · rw [if_neg hb, if_neg hb]; exact ⟨rfl, rfl, rfl⟩
  exact ⟨⟨((hsubmit false).1).symm, ((hsubmit false).2).symm⟩,
    ⟨((hpay false).1).symm, ((hpay false).2.1).symm,
      ((hpay false).2.2).symm⟩, ⟨rfl, rfl⟩⟩

/-- C10: when the selected service's stored price for the requested tier
is null or zero — both falsy to the `if not total_amount:` guard — the
submission is rejected with the invalid-tier flash and no order row is
created. -/
theorem submit_order_rejects_falsy_price (services : List Service)
    (f : OrderForm) (newId : Nat) (ts : String) (now : Nat) (ok : Bool)
    (s : Service) (hs : lookupService services f.serviceId = some s)
    (hfalsy : pyFalsyNum (tier_prices s f.serviceTier) = true) :
    (submit_order services f newId ts now ok).createdOrder = none
    ∧ (submit_order services f newId ts now ok).page
      = .renderOrderPage (some "Invalid service tier selected.") := by
  unfold submit_order
  rw [hs]
  dsimp only
  cases hp : tier_prices s f.serviceTier with
  | none => exact ⟨rfl, rfl⟩
  | some p =>
    dsimp only
    rw [hp] at hfalsy
    have hz : p = 0 := by simpa [pyFalsyNum] using hfalsy
    rw [if_pos hz]
    exact ⟨rfl, rfl⟩

/-- A concrete catalog row whose premium price is stored as 0 and whose
standard price is null. -/
def zeroTierService : Service :=
  { id := 8
    name := "Promo Service"
    price_basic := some 49
    price_standard := none
    price_premium := some 0
    active := true }

/-- A concrete validated order form selecting the zero-priced premium
tier of service 8. -/
def zeroTierForm : OrderForm :=
  { firstName := "Bob"
    lastName := "Jones"
    email := "bob@example.com"
    phone := none
    serviceId := 8
    serviceTier := "premium"
    resumeUpload := none
    coverLetterUpload := none
    jobDescriptionUpload := none }

/-- C10 (witness): the zero-priced premium tier is rejected as an
invalid service tier and no order row is created. -/
theorem submit_order_rejects_falsy_price_witness :
    (submit_order [zeroTierService] zeroTierForm 2 "20240101_000000" 0
      true).createdOrder = none
    ∧ (submit_order [zeroTierService] zeroTierForm 2 "20240101_000000" 0
      true).page
      = .renderOrderPage (some "Invalid service tier selected.") :=
  submit_order_rejects_falsy_price [zeroTierService] zeroTierForm 2
    "20240101_000000" 0 true zeroTierService (by decide) (by decide)

/-- A concrete order whose total, 299.009, is not a whole number of
cents. -/
def fractionalCentOrder : Order :=
  { baseOrder with totalAmount := 299009 / 1000 }

/-- C5 (counterexample): for a total of 299.009 the checkout request
carries unit_amount int(29900.9) = 29900, while round(29900.9) = 29901 —
the conversion to minor units truncates, it does not round. -/
theorem create_checkout_session_truncates_not_rounds :
    (create_checkout_session fractionalCentOrder (some "sk")
        (.ok ⟨"cs_9", none⟩)).requestedUnitAmount = some 29900
    ∧ round ((fractionalCentOrder.totalAmount * 100 : ℚ)) = 29901 := by
  have htotal : fractionalCentOrder.totalAmount = 299009 / 1000 := rfl
  have hq : (299009 / 1000 * 100 : ℚ) = 299009 / 10 := by norm_num
  have hpos : (0 : ℚ) ≤ 299009 / 10 := by norm_num
  have hfloor : ⌊(299009 / 10 : ℚ)⌋ = 29900 := by
    rw [Int.floor_eq_iff]
    constructor <;> norm_num
  constructor
  · have h1 : (create_checkout_session fractionalCentOrder (some "sk")
        (.ok ⟨"cs_9", none⟩)).requestedUnitAmount
          = some (pyInt (fractionalCentOrder.totalAmount * 100)) := rfl
    rw [h1, htotal, hq]
    unfold pyInt
    rw [if_pos hpos, hfloor]
  · rw [htotal, hq, round_eq]
    have h2 : (299009 / 10 + 1 / 2 : ℚ) = 299014 / 10 := by norm_num
    rw [h2, Int.floor_eq_iff]
    constructor <;> norm_num

/-- C5 (amended): whenever the provider call is made, the single line
item's unit_amount is int(total_amount * 100) — truncation toward zero —
and this agrees with round(total_amount * 100) exactly when the total is
a whole number of cents (total_amount * 100 an integer). -/
theorem create_checkout_session_unit_amount (o : Order)
    (apiKey : Option String) (provider : Except Unit StripeSession)
    (hkey : pyFalsyStr apiKey = false) :
    (create_checkout_session o apiKey provider).requestedUnitAmount
        = some (pyInt (o.totalAmount * 100))
    ∧ ((o.totalAmount * 100).den = 1 →
        pyInt (o.totalAmount * 100) = round (o.totalAmount * 100)) := by
  constructor
  · unfold create_checkout_session
    rw [hkey]
    cases provider <;> rfl
  · intro hden
    have h : ((o.totalAmount * 100).num : ℚ) = o.totalAmount * 100 :=
      (Rat.den_eq_one_iff _).mp hden
    rw [← h]
    unfold pyInt
    by_cases h0 : (0 : ℚ) ≤ ((o.totalAmount * 100).num : ℚ) <;>
      simp [h0, Int.floor_intCast, Int.ceil_intCast, round_intCast]

/-- C5 (witness): for the concrete 299-dollar order with a configured
key, the provider call is made with unit_amount int(29900) and, the
total being a whole number of cents, it coincides with rounding. -/
theorem create_checkout_session_unit_amount_witness :
    (create_checkout_session baseOrder (some "sk")
        (.ok ⟨"cs_9", none⟩)).requestedUnitAmount
        = some (pyInt (baseOrder.totalAmount * 100))
    ∧ pyInt (baseOrder.totalAmount * 100)
        = round (baseOrder.totalAmount * 100) :=
  ⟨(create_checkout_session_unit_amount baseOrder (some "sk")
      (.ok ⟨"cs_9", none⟩) (by decide)).1,
   (create_checkout_session_unit_amount baseOrder (some "sk")
      (.ok ⟨"cs_9", none⟩) (by decide)).2 (by
        have h : (baseOrder.totalAmount * 100 : ℚ) = (29900 : ℚ) := by
          norm_num [baseOrder]
        rw [h]
        simp)⟩

/-- C6: with a configured provider key, a failing session-creation call
leaves the order row exactly as it was — no session token is written —
and answers with the generic retryable error; a successful call commits
exactly the returned session id onto the order and answers with the
redirect to the hosted session. -/
theorem create_checkout_session_failure_atomicity (o : Order)
    (apiKey : Option String) (hkey : pyFalsyStr apiKey = false) :
    (∀ e, (create_checkout_session o apiKey (.error e)).order = o
      ∧ (create_checkout_session o apiKey (.error e)).page
          = .providerErrorRedirectOrder)
    ∧ (∀ s : StripeSession,
        (create_checkout_session o apiKey (.ok s)).order
            = { o with stripeSessionId := some s.id }
      ∧ (create_checkout_session o apiKey (.ok s)).page
          = .redirectSession s.url) := by
  unfold create_checkout_session
  rw [hkey]
  exact ⟨fun e => ⟨rfl, rfl⟩, fun s => ⟨rfl, rfl⟩⟩

/-- C6 (witness): concrete evaluation — the failing provider call leaves
the 299-dollar order untouched and surfaces the retryable error. -/
theorem create_checkout_session_failure_atomicity_witness :
    (create_checkout_session baseOrder (some "sk") (.error ())).order
        = baseOrder
    ∧ (create_checkout_session baseOrder (some "sk") (.error ())).page
        = .providerErrorRedirectOrder :=
  (create_checkout_session_failure_atomicity baseOrder (some "sk")
    (by decide)).1 ()

/-- C4 (counterexample): updating a cancelled order to completed assigns
completed_at — the claim allows the assignment only when the old status
is pending or in_progress, and cancelled is neither. -/
theorem admin_update_order_completedAt_from_cancelled :
    (admin_update_order { baseOrder with status := .cancelled }
        .completed none 5 [] true).order.completedAt = some 5 := by
  decide

/-- C4 (amended): completed_at is assigned by the update exactly when
the requested status is completed and the old status is not completed —
so also on the cancelled → completed edge; otherwise the stored value is
kept. -/
theorem admin_update_order_completedAt (o : Order)
    (newStatus : OrderStatus) (notes : Option String) (now : Nat)
    (tracking : List OrderTracking) (ok : Bool) :
    (admin_update_order o newStatus notes now tracking ok).order.completedAt
      = if newStatus = .completed ∧ o.status ≠ .completed then some now
        else o.completedAt := by
  unfold admin_update_order
  by_cases h : newStatus = .completed ∧ o.status ≠ .completed <;> simp [h]
